import Mathlib

/-!
Shallow embedding of the Synesis feedlot profitability model
(`computeProfit` and the grid samplers `heatZ`, `zeroLineX`, `elasticity`
from the single source file of the repository).

JavaScript numbers are modelled as exact rationals.  Inputs are finite
rationals, so the `Number.isFinite` branch of each input guard is the
identity and only the numeric clamps (`Math.max(1e-9, peso_salida)`,
the positivity clamp on `adpv`) remain.  All divisions in the source
except one have a denominator of the form `Math.max(1e-9, x)` or the
clamped `adpv`, both provably positive, so those quotients are finite
and are modelled with rational division.  The single unguarded division,
`rent_mensual = rent_inv / (dof / 30)`, is modelled with `jdiv`, which
returns `none` exactly when the denominator is zero — the case in which
IEEE arithmetic produces a non-finite result (Infinity or NaN).
-/

namespace Synesis

/-- The epsilon used by every `Math.max(1e-9, _)` guard in the source. -/
def eps : ℚ := 1 / 1000000000

/-- The fallback value for a non-positive `adpv` (source: `1e-6`). -/
def adpvFallback : ℚ := 1 / 1000000

/-- Input record of `computeProfit` (source lines 889–895). -/
structure ScenarioParameters where
  precio_compra : ℚ
  precio_venta : ℚ
  peso_compra : ℚ
  peso_salida : ℚ
  precio_por_tn : ℚ
  conversion : ℚ
  adpv : ℚ
  estadia : ℚ
  sanidad : ℚ

/-- Guard on `peso_salida`: `Math.max(1e-9, peso_salida)` for a finite input. -/
def gSalida (x : ℚ) : ℚ := max eps x

/-- Guard on `adpv`: `adpv > 0 ? adpv : 1e-6` for a finite input. -/
def gAdpv (x : ℚ) : ℚ := if 0 < x then x else adpvFallback

/-- `deltaPeso = _peso_salida - _peso_compra`. -/
def deltaPeso (p : ScenarioParameters) : ℚ := gSalida p.peso_salida - p.peso_compra

/-- `dof = deltaPeso / _adpv`. -/
def dof (p : ScenarioParameters) : ℚ := deltaPeso p / gAdpv p.adpv

/-- `feedCostPerKgGain = _conversion * (_precio_por_tn / 1000)`. -/
def feedCostPerKgGain (p : ScenarioParameters) : ℚ :=
  p.conversion * (p.precio_por_tn / 1000)

/-- `costoFeedTotal = deltaPeso * feedCostPerKgGain`. -/
def costoFeedTotal (p : ScenarioParameters) : ℚ := deltaPeso p * feedCostPerKgGain p

/-- `costoOverhead = _estadia * dof`. -/
def costoOverhead (p : ScenarioParameters) : ℚ := p.estadia * dof p

/-- `costoCompra = _precio_compra * _peso_compra`. -/
def costoCompra (p : ScenarioParameters) : ℚ := p.precio_compra * p.peso_compra

/-- `ingreso = _precio_venta * _peso_salida`. -/
def ingreso (p : ScenarioParameters) : ℚ := p.precio_venta * gSalida p.peso_salida

/-- `margen_neto = ingreso - (costoCompra + costoFeedTotal + costoOverhead + _sanidad)`. -/
def margen_neto (p : ScenarioParameters) : ℚ :=
  ingreso p - (costoCompra p + costoFeedTotal p + costoOverhead p + p.sanidad)

/-- `relacion_compra_venta = _precio_compra / Math.max(1e-9, _precio_venta)`. -/
def relacion_compra_venta (p : ScenarioParameters) : ℚ :=
  p.precio_compra / max eps p.precio_venta

/-- `breakeven_compra = (_precio_venta * _peso_salida - (costoFeedTotal + costoOverhead
+ _sanidad)) / Math.max(1e-9, _peso_compra)`. -/
def breakeven_compra (p : ScenarioParameters) : ℚ :=
  (p.precio_venta * gSalida p.peso_salida -
    (costoFeedTotal p + costoOverhead p + p.sanidad)) / max eps p.peso_compra

/-- `breakeven_venta = (costoCompra + costoFeedTotal + costoOverhead + _sanidad)
/ Math.max(1e-9, _peso_salida)`. -/
def breakeven_venta (p : ScenarioParameters) : ℚ :=
  (costoCompra p + costoFeedTotal p + costoOverhead p + p.sanidad) /
    max eps (gSalida p.peso_salida)

/-- `caida_precio_venta_ganar_0 = ((_precio_venta - breakeven_venta)
/ Math.max(1e-9, _precio_venta)) * 100`. -/
def caida_precio_venta_ganar_0 (p : ScenarioParameters) : ℚ :=
  ((p.precio_venta - breakeven_venta p) / max eps p.precio_venta) * 100

/-- `costo_kg_producido = (costoFeedTotal + costoOverhead + _sanidad)
/ Math.max(1e-9, deltaPeso)`. -/
def costo_kg_producido (p : ScenarioParameters) : ℚ :=
  (costoFeedTotal p + costoOverhead p + p.sanidad) / max eps (deltaPeso p)

/-- `overhead_por_kg = _estadia / _adpv`. -/
def overhead_por_kg (p : ScenarioParameters) : ℚ := p.estadia / gAdpv p.adpv

/-- `total_inversion = costoCompra + costoFeedTotal + costoOverhead + _sanidad`. -/
def total_inversion (p : ScenarioParameters) : ℚ :=
  costoCompra p + costoFeedTotal p + costoOverhead p + p.sanidad

/-- `rent_inv = (margen_neto / Math.max(1e-9, total_inversion)) * 100`. -/
def rent_inv (p : ScenarioParameters) : ℚ :=
  (margen_neto p / max eps (total_inversion p)) * 100

/-- Division of finite values as JavaScript performs it on the one unguarded
denominator of the model: a nonzero denominator gives the exact quotient, a
zero denominator gives a non-finite double (Infinity or NaN), modelled as
`none`. -/
def jdiv (a b : ℚ) : Option ℚ := if b = 0 then none else some (a / b)

/-- `rent_mensual = rent_inv / (dof / 30)` — the single division in the source
whose denominator carries no guard. -/
def rent_mensual (p : ScenarioParameters) : Option ℚ := jdiv (rent_inv p) (dof p / 30)

/-- `rent_anual = rent_mensual * 12` (a non-finite operand stays non-finite). -/
def rent_anual (p : ScenarioParameters) : Option ℚ :=
  (rent_mensual p).map (fun x => x * 12)

/-- Result record of `computeProfit` (source lines 932–949). -/
structure ProfitResult where
  precio_neto_compra : ℚ
  precio_neto_venta : ℚ
  margen_de_alimentacion : ℚ
  margen_neto : ℚ
  relacion_compra_venta : ℚ
  breakeven_compra : ℚ
  breakeven_venta : ℚ
  caida_precio_venta_ganar_0 : ℚ
  costo_kg_producido : ℚ
  overhead_por_kg : ℚ
  rent_inv : ℚ
  rent_mensual : Option ℚ
  rent_anual : Option ℚ
  dof : ℚ
  sanidad : ℚ
  total_inversion : ℚ

/-- `computeProfit` (source lines 889–950). -/
def computeProfit (p : ScenarioParameters) : ProfitResult where
  precio_neto_compra := p.precio_compra
  precio_neto_venta := p.precio_venta
  margen_de_alimentacion := deltaPeso p * (p.precio_venta - feedCostPerKgGain p)
  margen_neto := margen_neto p
  relacion_compra_venta := relacion_compra_venta p
  breakeven_compra := breakeven_compra p
  breakeven_venta := breakeven_venta p
  caida_precio_venta_ganar_0 := caida_precio_venta_ganar_0 p
  costo_kg_producido := costo_kg_producido p
  overhead_por_kg := overhead_por_kg p
  rent_inv := rent_inv p
  rent_mensual := rent_mensual p
  rent_anual := rent_anual p
  dof := dof p
  sanidad := p.sanidad
  total_inversion := total_inversion p

/-- The heatmap sampler `heatZ` (source lines 1077–1097): row-major matrix,
outer loop over the purchase-price axis, each cell the `margen_neto` of
`computeProfit` at that (purchase price, sale price) pair with the other
parameters fixed and `adpv` clamped to `Math.max(0.01, adpv)` as at every
call site of the samplers. -/
def heatZ (compraGrid ventaGrid : List ℚ) (b : ScenarioParameters) : List (List ℚ) :=
  compraGrid.map (fun pc =>
    ventaGrid.map (fun pv =>
      (computeProfit { b with precio_compra := pc, precio_venta := pv,
                              adpv := max (1/100) b.adpv }).margen_neto))

/-- The breakeven-curve sampler `zeroLineX` (source lines 1099–1110): for each
purchase-price axis value, `breakeven_venta` of `computeProfit` called with
`precio_venta = 0`. -/
def zeroLineX (compraGrid : List ℚ) (b : ScenarioParameters) : List ℚ :=
  compraGrid.map (fun pc =>
    (computeProfit { b with precio_compra := pc, precio_venta := 0,
                            adpv := max (1/100) b.adpv }).breakeven_venta)

/-- The index produced by the source's `reduce` over the sensitivity grid
(source line 1066): starting from 0, replace the accumulator by the current
index whenever the current grid value is strictly closer to the reference
price. -/
def nearestIdx (xs : List ℚ) (ref : ℚ) : ℕ :=
  (List.range xs.length).foldl
    (fun best i => if |xs.getD i 0 - ref| < |xs.getD best 0 - ref| then i else best) 0

/-- The elasticity estimate (source lines 1064–1071). -/
def elasticity (xs ys : List ℚ) (ref : ℚ) : ℚ :=
  if xs.length < 2 then 0
  else
    let idx := nearestIdx xs ref
    let j := min (idx + 1) (xs.length - 1)
    let dy := ys.getD j 0 - ys.getD idx 0
    let dx := xs.getD j 0 - xs.getD idx 0
    dy / max eps dx

/-- The reference scenario of the source's self-tests (source line 959). -/
def baseParams : ScenarioParameters where
  precio_compra := 3000
  precio_venta := 3500
  peso_compra := 200
  peso_salida := 300
  precio_por_tn := 60000
  conversion := 8
  adpv := 3/2
  estadia := 20
  sanidad := 1000

end Synesis

namespace Synesis

/-- The guard epsilon is positive. -/
lemma eps_pos : (0:ℚ) < eps := by norm_num [eps]

/-- The guarded exit weight is positive (it is at least `eps`). -/
lemma gSalida_pos (x : ℚ) : 0 < gSalida x := lt_of_lt_of_le eps_pos (le_max_left _ _)

/-- Applying the `Math.max(1e-9, _)` guard to an already guarded exit weight
changes nothing. -/
lemma max_eps_gSalida (x : ℚ) : max eps (gSalida x) = gSalida x :=
  max_eq_right (le_max_left _ _)

/-- `margen_neto` after replacing only the sale price: the three cost terms and
the health cost are unchanged. -/
lemma margen_neto_update_venta (p : ScenarioParameters) (v : ℚ) :
    margen_neto { p with precio_venta := v } =
      v * gSalida p.peso_salida -
        (costoCompra p + costoFeedTotal p + costoOverhead p + p.sanidad) := rfl

/-- `margen_neto` after replacing only the purchase price: revenue, feed cost,
overhead cost and health cost are unchanged. -/
lemma margen_neto_update_compra (p : ScenarioParameters) (c : ℚ) :
    margen_neto { p with precio_compra := c } =
      ingreso p - (c * p.peso_compra + costoFeedTotal p + costoOverhead p + p.sanidad) := rfl

/-- The reference scenario with `peso_salida` lowered to the purchase weight,
so that the weight gain and thus `dof` are exactly zero. -/
def zeroGainParams : ScenarioParameters := { baseParams with peso_salida := 200 }

/-- A scenario with a negative purchase cost and all remaining costs zero. -/
def negativeCostParams : ScenarioParameters where
  precio_compra := -1000
  precio_venta := 0
  peso_compra := 100
  peso_salida := 0
  precio_por_tn := 0
  conversion := 0
  adpv := 1
  estadia := 0
  sanidad := 0

/-- The reference scenario with a zero purchase weight. -/
def zeroWeightParams : ScenarioParameters := { baseParams with peso_compra := 0 }

/-- C1: totality fails on the code. At `zeroGainParams` (exit weight equal to
purchase weight, hence `deltaPeso = 0` and `dof = 0`) the unguarded division
`rent_mensual = rent_inv / (dof / 30)` has a zero denominator and a nonzero
numerator, so the JavaScript source returns `Infinity` for `rent_mensual` and
`rent_anual`: these result fields are not finite, contradicting the claim that
every field of the result is finite even when the weight gain is zero. -/
theorem rent_mensual_nonfinite_at_zero_gain :
    (computeProfit zeroGainParams).rent_mensual = none ∧
    (computeProfit zeroGainParams).rent_anual = none ∧
    rent_inv zeroGainParams ≠ 0 ∧ dof zeroGainParams = 0 := by
  norm_num [computeProfit, rent_mensual, rent_anual, jdiv, rent_inv, margen_neto, ingreso,
    costoCompra, costoFeedTotal, costoOverhead, total_inversion, deltaPeso, feedCostPerKgGain,
    dof, gSalida, gAdpv, eps, adpvFallback, zeroGainParams, baseParams]

/-- C2: breakeven sale-price round trip. For every parameter tuple, re-running
`computeProfit` with the sale price replaced by the returned
`breakeven_venta` (all other parameters fixed) yields a net margin within
`1e-6` of zero (in the exact rational model it is exactly zero, because the
guarded exit weight is always at least the epsilon of its `Math.max` guard). -/
theorem breakeven_venta_roundtrip (p : ScenarioParameters) :
    |(computeProfit { p with precio_venta := (computeProfit p).breakeven_venta }).margen_neto| ≤
      1 / 1000000 := by
  have hz : gSalida p.peso_salida ≠ 0 := ne_of_gt (gSalida_pos _)
  have key : (computeProfit
      { p with precio_venta := (computeProfit p).breakeven_venta }).margen_neto = 0 := by
    show margen_neto { p with precio_venta := breakeven_venta p } = 0
    rw [margen_neto_update_venta]
    unfold breakeven_venta
    rw [max_eps_gSalida, div_mul_cancel₀ _ hz]
    ring
  rw [key]
  norm_num

/-- C3: with every other field fixed, `margen_neto` is strictly increasing in
the sale price, because the revenue term is the sale price times the guarded
exit weight, which is strictly positive, and no cost term depends on the sale
price. -/
theorem margen_neto_mono_precio_venta (p : ScenarioParameters) (s1 s2 : ℚ) (h : s1 < s2) :
    (computeProfit { p with precio_venta := s1 }).margen_neto <
    (computeProfit { p with precio_venta := s2 }).margen_neto := by
  show margen_neto { p with precio_venta := s1 } < margen_neto { p with precio_venta := s2 }
  rw [margen_neto_update_venta, margen_neto_update_venta]
  have hpos : 0 < (s2 - s1) * gSalida p.peso_salida :=
    mul_pos (sub_pos.mpr h) (gSalida_pos _)
  nlinarith [gSalida_pos p.peso_salida]

/-- Concrete instance of C3 at the reference scenario: raising the sale price
from 3500 to 4000 strictly increases the net margin. -/
theorem margen_neto_mono_precio_venta_witness :
    (3500:ℚ) < 4000 ∧
    (computeProfit { baseParams with precio_venta := 3500 }).margen_neto <
    (computeProfit { baseParams with precio_venta := 4000 }).margen_neto :=
  ⟨by norm_num, margen_neto_mono_precio_venta baseParams 3500 4000 (by norm_num)⟩

/-- C4: heatmap grid consistency. The matrix built by `heatZ` has one row per
purchase-price axis value (outer loop over purchase price), each row has one
cell per sale-price axis value, and the cell at (row i, column j) is exactly
the `margen_neto` of `computeProfit` at purchase price `compraGrid[i]` and
sale price `ventaGrid[j]` with the remaining parameters fixed — no
interpolation. -/
theorem heatZ_cells (cg vg : List ℚ) (b : ScenarioParameters) (i j : ℕ)
    (hi : i < cg.length) (hj : j < vg.length) :
    ((heatZ cg vg b).getD i []).getD j 0 =
      (computeProfit { b with precio_compra := cg.getD i 0, precio_venta := vg.getD j 0,
                              adpv := max (1/100) b.adpv }).margen_neto ∧
    (heatZ cg vg b).length = cg.length ∧
    ∀ row ∈ heatZ cg vg b, row.length = vg.length := by
  refine ⟨?_, ?_, ?_⟩
  · simp [heatZ, List.getD_eq_getElem?_getD, List.getElem?_map, List.getElem?_eq_getElem, hi, hj]
  · simp [heatZ]
  · intro row hrow
    simp [heatZ] at hrow
    obtain ⟨pc, hpc, rfl⟩ := hrow
    simp

/-- A two-row, one-column purchase-price axis used to instantiate C4. -/
def heatCompraAxis : List ℚ := [2500, 3000]

/-- A one-element sale-price axis used to instantiate C4. -/
def heatVentaAxis : List ℚ := [3500]

/-- Concrete instance of C4 on a 2×1 grid at the reference scenario. -/
theorem heatZ_cells_witness :
    1 < heatCompraAxis.length ∧ 0 < heatVentaAxis.length ∧
    (((heatZ heatCompraAxis heatVentaAxis baseParams).getD 1 []).getD 0 0 =
        (computeProfit { baseParams with
                         precio_compra := heatCompraAxis.getD 1 0,
                         precio_venta := heatVentaAxis.getD 0 0,
                         adpv := max (1/100) baseParams.adpv }).margen_neto ∧
      (heatZ heatCompraAxis heatVentaAxis baseParams).length = heatCompraAxis.length ∧
      ∀ row ∈ heatZ heatCompraAxis heatVentaAxis baseParams,
        row.length = heatVentaAxis.length) :=
  ⟨by decide, by decide,
    heatZ_cells heatCompraAxis heatVentaAxis baseParams 1 0 (by decide) (by decide)⟩

/-- C5 counterexample: with a negative purchase price (purchase cost −100000)
and every other cost zero, `total_inversion` is −100000, which is strictly
below `costoFeedTotal = 0`; so `total_investment` is not ≥ the feed cost for
every input, refuting the unconditional inequality of the claim. -/
theorem total_inversion_ge_fails :
    (computeProfit negativeCostParams).total_inversion < costoFeedTotal negativeCostParams := by
  norm_num [computeProfit, total_inversion, costoCompra, costoFeedTotal, costoOverhead,
    deltaPeso, feedCostPerKgGain, dof, gSalida, gAdpv, eps, adpvFallback, negativeCostParams]

/-- C5 (amended): `total_inversion` always equals
`costoCompra + costoFeedTotal + costoOverhead + sanidad`; and whenever the four
components are each nonnegative, it is at least each of the feed, overhead and
health costs individually. -/
theorem total_inversion_sum_and_bounds (p : ScenarioParameters) :
    (computeProfit p).total_inversion =
      costoCompra p + costoFeedTotal p + costoOverhead p + p.sanidad ∧
    (0 ≤ costoCompra p → 0 ≤ costoFeedTotal p → 0 ≤ costoOverhead p → 0 ≤ p.sanidad →
      costoFeedTotal p ≤ (computeProfit p).total_inversion ∧
      costoOverhead p ≤ (computeProfit p).total_inversion ∧
      p.sanidad ≤ (computeProfit p).total_inversion) := by
  refine ⟨rfl, fun h1 h2 h3 h4 => ?_⟩
  show costoFeedTotal p ≤ total_inversion p ∧ costoOverhead p ≤ total_inversion p ∧
    p.sanidad ≤ total_inversion p
  unfold total_inversion
  exact ⟨by linarith, by linarith, by linarith⟩

/-- Concrete instance of C5 (amended) at the reference scenario, where all four
cost components are nonnegative. -/
theorem total_inversion_sum_and_bounds_witness :
    (computeProfit baseParams).total_inversion =
      costoCompra baseParams + costoFeedTotal baseParams + costoOverhead baseParams +
        baseParams.sanidad ∧
    (costoFeedTotal baseParams ≤ (computeProfit baseParams).total_inversion ∧
     costoOverhead baseParams ≤ (computeProfit baseParams).total_inversion ∧
     baseParams.sanidad ≤ (computeProfit baseParams).total_inversion) :=
  ⟨(total_inversion_sum_and_bounds baseParams).1,
   (total_inversion_sum_and_bounds baseParams).2
     (by norm_num [costoCompra, baseParams])
     (by norm_num [costoFeedTotal, deltaPeso, feedCostPerKgGain, gSalida, eps, baseParams])
     (by norm_num [costoOverhead, dof, deltaPeso, gAdpv, gSalida, eps, adpvFallback, baseParams])
     (by norm_num [baseParams])⟩

/-- C6: `breakeven_venta` does not depend on the sale-price argument, and the
breakeven-curve sampler `zeroLineX` returns, for each purchase-price axis
value, exactly the `breakeven_venta` of `computeProfit` called with sale
price 0 and that purchase price. -/
theorem breakeven_venta_noninterference :
    (∀ (p : ScenarioParameters) (v1 v2 : ℚ),
        (computeProfit { p with precio_venta := v1 }).breakeven_venta =
        (computeProfit { p with precio_venta := v2 }).breakeven_venta) ∧
    ∀ (cg : List ℚ) (b : ScenarioParameters) (i : ℕ), i < cg.length →
      (zeroLineX cg b).getD i 0 =
        (computeProfit { b with precio_compra := cg.getD i 0, precio_venta := 0,
                                adpv := max (1/100) b.adpv }).breakeven_venta := by
  constructor
  · intro p v1 v2
    rfl
  · intro cg b i hi
    simp [zeroLineX, List.getD_eq_getElem?_getD, List.getElem?_map, List.getElem?_eq_getElem, hi]

/-- Concrete instance of C6 at the reference scenario: two different sale
prices give the same `breakeven_venta`, and `zeroLineX` on a one-point axis
returns that breakeven price. -/
theorem breakeven_venta_noninterference_witness :
    (computeProfit { baseParams with precio_venta := 111 }).breakeven_venta =
      (computeProfit { baseParams with precio_venta := 222 }).breakeven_venta ∧
    (zeroLineX [2500] baseParams).getD 0 0 =
      (computeProfit { baseParams with
                       precio_compra := ([2500] : List ℚ).getD 0 0,
                       precio_venta := 0,
                       adpv := max (1/100) baseParams.adpv }).breakeven_venta :=
  ⟨breakeven_venta_noninterference.1 baseParams 111 222,
   breakeven_venta_noninterference.2 [2500] baseParams 0 (by decide)⟩

/-- C7: feed-cost linearity. Raising `precio_por_tn` by `d` (all other fields
fixed) raises `costoFeedTotal` by exactly `deltaPeso * conversion * (d/1000)`
and lowers `margen_neto` by exactly the same amount. -/
theorem costoFeedTotal_linearity (p : ScenarioParameters) (d : ℚ) :
    costoFeedTotal { p with precio_por_tn := p.precio_por_tn + d } =
      costoFeedTotal p + deltaPeso p * p.conversion * (d / 1000) ∧
    margen_neto { p with precio_por_tn := p.precio_por_tn + d } =
      margen_neto p - deltaPeso p * p.conversion * (d / 1000) := by
  constructor
  · show deltaPeso p * (p.conversion * ((p.precio_por_tn + d) / 1000)) =
      deltaPeso p * (p.conversion * (p.precio_por_tn / 1000)) +
        deltaPeso p * p.conversion * (d / 1000)
    ring
  · show ingreso p - (costoCompra p +
        deltaPeso p * (p.conversion * ((p.precio_por_tn + d) / 1000)) +
        costoOverhead p + p.sanidad) =
      ingreso p - (costoCompra p +
        deltaPeso p * (p.conversion * (p.precio_por_tn / 1000)) +
        costoOverhead p + p.sanidad) - deltaPeso p * p.conversion * (d / 1000)
    ring

end Synesis

namespace Synesis

/-- Invariant of the source's index-selecting `reduce`: folding the
closer-index step over any list of candidate indices yields an index whose
grid value is at least as close to the reference as the start index and as
every candidate in the list. -/
lemma foldl_nearest_le (xs : List ℚ) (ref : ℚ) (l : List ℕ) (b0 : ℕ) :
    |xs.getD (l.foldl (fun best i =>
        if |xs.getD i 0 - ref| < |xs.getD best 0 - ref| then i else best) b0) 0 - ref| ≤
      |xs.getD b0 0 - ref| ∧
    ∀ i ∈ l, |xs.getD (l.foldl (fun best i =>
        if |xs.getD i 0 - ref| < |xs.getD best 0 - ref| then i else best) b0) 0 - ref| ≤
      |xs.getD i 0 - ref| := by
  induction l generalizing b0 with
  | nil => simp
  | cons a t ih =>
    simp only [List.foldl_cons]
    by_cases hc : |xs.getD a 0 - ref| < |xs.getD b0 0 - ref|
    · rw [if_pos hc]
      obtain ⟨h1, h2⟩ := ih a
      refine ⟨h1.trans hc.le, ?_⟩
      intro i hi
      rcases List.mem_cons.mp hi with rfl | hmem
      · exact h1
      · exact h2 i hmem
    · rw [if_neg hc]
      obtain ⟨h1, h2⟩ := ih b0
      refine ⟨h1, ?_⟩
      intro i hi
      rcases List.mem_cons.mp hi with rfl | hmem
      · exact h1.trans (not_lt.mp hc)
      · exact h2 i hmem

/-- The folded index is either the start index or one of the candidates. -/
lemma foldl_nearest_mem (xs : List ℚ) (ref : ℚ) (l : List ℕ) (b0 : ℕ) :
    l.foldl (fun best i =>
        if |xs.getD i 0 - ref| < |xs.getD best 0 - ref| then i else best) b0 = b0 ∨
    l.foldl (fun best i =>
        if |xs.getD i 0 - ref| < |xs.getD best 0 - ref| then i else best) b0 ∈ l := by
  induction l generalizing b0 with
  | nil => left; rfl
  | cons a t ih =>
    simp only [List.foldl_cons]
    by_cases hc : |xs.getD a 0 - ref| < |xs.getD b0 0 - ref|
    · rw [if_pos hc]
      rcases ih a with h | h
      · right; rw [h]; exact List.mem_cons_self a t
      · right; exact List.mem_cons_of_mem a h
    · rw [if_neg hc]
      rcases ih b0 with h | h
      · left; exact h
      · right; exact List.mem_cons_of_mem a h

/-- On a nonempty grid the selected index is in bounds. -/
lemma nearestIdx_lt (xs : List ℚ) (ref : ℚ) (h : 0 < xs.length) :
    nearestIdx xs ref < xs.length := by
  unfold nearestIdx
  rcases foldl_nearest_mem xs ref (List.range xs.length) 0 with h0 | hm
  · rw [h0]; exact h
  · exact List.mem_range.mp hm

/-- The selected index is a nearest grid point to the reference price. -/
lemma nearestIdx_min (xs : List ℚ) (ref : ℚ) :
    ∀ i < xs.length, |xs.getD (nearestIdx xs ref) 0 - ref| ≤ |xs.getD i 0 - ref| := by
  intro i hi
  exact (foldl_nearest_le xs ref (List.range xs.length) 0).2 i (List.mem_range.mpr hi)

/-- C8: on a grid of at least two sale prices, `elasticity` is the one-sided
forward difference `(ys[j] - ys[idx]) / max(1e-9, xs[j] - xs[idx])` with
`j = min(idx+1, N-1)`, where `idx` is an in-bounds grid index whose price is
nearest the reference price; at the right boundary (`idx = N-1`) both the
numerator and the unguarded denominator vanish. -/
theorem elasticity_forward_difference (xs ys : List ℚ) (ref : ℚ) (h2 : 2 ≤ xs.length) :
    elasticity xs ys ref =
      (ys.getD (min (nearestIdx xs ref + 1) (xs.length - 1)) 0 -
          ys.getD (nearestIdx xs ref) 0) /
        max eps (xs.getD (min (nearestIdx xs ref + 1) (xs.length - 1)) 0 -
          xs.getD (nearestIdx xs ref) 0) ∧
    nearestIdx xs ref < xs.length ∧
    (∀ i < xs.length, |xs.getD (nearestIdx xs ref) 0 - ref| ≤ |xs.getD i 0 - ref|) ∧
    (nearestIdx xs ref = xs.length - 1 →
      ys.getD (min (nearestIdx xs ref + 1) (xs.length - 1)) 0 -
        ys.getD (nearestIdx xs ref) 0 = 0 ∧
      xs.getD (min (nearestIdx xs ref + 1) (xs.length - 1)) 0 -
        xs.getD (nearestIdx xs ref) 0 = 0) := by
  have hlen : ¬ (xs.length < 2) := by omega
  refine ⟨?_, nearestIdx_lt xs ref (by omega), nearestIdx_min xs ref, ?_⟩
  · unfold elasticity
    rw [if_neg hlen]
  · intro hb
    have hmin : min (nearestIdx xs ref + 1) (xs.length - 1) = nearestIdx xs ref := by
      omega
    rw [hmin]
    exact ⟨sub_self _, sub_self _⟩

/-- A three-point sale-price grid used to instantiate C8. -/
def sampleXs : List ℚ := [1, 2, 3]

/-- The margin values over `sampleXs` used to instantiate C8. -/
def sampleYs : List ℚ := [10, 20, 40]

/-- Concrete instance of C8 on the three-point grid with reference price 2. -/
theorem elasticity_forward_difference_witness :
    2 ≤ sampleXs.length ∧
    (elasticity sampleXs sampleYs 2 =
        (sampleYs.getD (min (nearestIdx sampleXs 2 + 1) (sampleXs.length - 1)) 0 -
            sampleYs.getD (nearestIdx sampleXs 2) 0) /
          max eps (sampleXs.getD (min (nearestIdx sampleXs 2 + 1) (sampleXs.length - 1)) 0 -
            sampleXs.getD (nearestIdx sampleXs 2) 0) ∧
      nearestIdx sampleXs 2 < sampleXs.length ∧
      (∀ i < sampleXs.length,
        |sampleXs.getD (nearestIdx sampleXs 2) 0 - 2| ≤ |sampleXs.getD i 0 - 2|) ∧
      (nearestIdx sampleXs 2 = sampleXs.length - 1 →
        sampleYs.getD (min (nearestIdx sampleXs 2 + 1) (sampleXs.length - 1)) 0 -
          sampleYs.getD (nearestIdx sampleXs 2) 0 = 0 ∧
        sampleXs.getD (min (nearestIdx sampleXs 2 + 1) (sampleXs.length - 1)) 0 -
          sampleXs.getD (nearestIdx sampleXs 2) 0 = 0)) :=
  ⟨by decide, elasticity_forward_difference sampleXs sampleYs 2 (by decide)⟩

/-- C9 counterexample: at a zero purchase weight the epsilon guard decouples
`breakeven_compra` from the re-evaluation — plugging the returned
`breakeven_compra` back in as the purchase price leaves a net margin of
901000, far outside any 1e-6 tolerance. -/
theorem breakeven_compra_roundtrip_fails :
    1 / 1000000 <
      |(computeProfit { zeroWeightParams with
          precio_compra := (computeProfit zeroWeightParams).breakeven_compra }).margen_neto| := by
  norm_num [computeProfit, margen_neto, ingreso, costoCompra, costoFeedTotal, costoOverhead,
    breakeven_compra, deltaPeso, feedCostPerKgGain, dof, gSalida, gAdpv, eps, adpvFallback,
    zeroWeightParams, baseParams]

/-- C9 (amended): `breakeven_compra` is
`(ingreso - (costoFeedTotal + costoOverhead + sanidad)) / max(1e-9, peso_compra)`
for every input, and whenever the purchase weight is at least the guard
epsilon `1e-9`, re-evaluating `computeProfit` with the purchase price replaced
by it (all other parameters fixed) yields a net margin of exactly zero. -/
theorem breakeven_compra_roundtrip (p : ScenarioParameters) :
    (computeProfit p).breakeven_compra =
      (ingreso p - (costoFeedTotal p + costoOverhead p + p.sanidad)) / max eps p.peso_compra ∧
    (eps ≤ p.peso_compra →
      (computeProfit { p with
        precio_compra := (computeProfit p).breakeven_compra }).margen_neto = 0) := by
  refine ⟨rfl, fun h => ?_⟩
  have hz : p.peso_compra ≠ 0 := ne_of_gt (lt_of_lt_of_le eps_pos h)
  show margen_neto { p with precio_compra := breakeven_compra p } = 0
  rw [margen_neto_update_compra]
  unfold breakeven_compra
  rw [max_eq_right h]
  rw [div_mul_cancel₀ _ hz]
  show ingreso p - (ingreso p - (costoFeedTotal p + costoOverhead p + p.sanidad) +
    costoFeedTotal p + costoOverhead p + p.sanidad) = 0
  ring

/-- Concrete instance of C9 (amended) at the reference scenario, whose
purchase weight 200 is above the guard epsilon. -/
theorem breakeven_compra_roundtrip_witness :
    eps ≤ baseParams.peso_compra ∧
    (computeProfit { baseParams with
      precio_compra := (computeProfit baseParams).breakeven_compra }).margen_neto = 0 :=
  ⟨by norm_num [eps, baseParams],
   (breakeven_compra_roundtrip baseParams).2 (by norm_num [eps, baseParams])⟩

/-- C10: the `margen_de_alimentacion` field values only the weight gain at the
sale price: it equals `(guarded exit weight − purchase weight) *
(sale price − conversion * price_per_ton / 1000)`, not the full revenue. -/
theorem margen_de_alimentacion_formula (p : ScenarioParameters) :
    (computeProfit p).margen_de_alimentacion =
      (gSalida p.peso_salida - p.peso_compra) *
        (p.precio_venta - p.conversion * (p.precio_por_tn / 1000)) := rfl

end Synesis
